import Mathlib

/-!
Verification of the disaster-response backend's resolution cache layer,
multi-provider fallback geocoder and text-extraction step
(src/utils/cache.js a.k.a. `CacheService`, and src/routes/geocoding.js),
as a shallow embedding in Lean 4.

Modelling conventions:
* Time is a `Nat` counting milliseconds (JavaScript `Date.now()`).
* The cache table (Supabase `cache` table: key / jsonb value / expires_at)
  is an association list from `String` keys to entries; `.upsert` replaces,
  `.delete` removes, `.select ... .single()` errors on zero rows.
* Availability of the underlying storage medium during one call is an
  explicit `fault : Bool` argument threaded to the raw storage operations;
  `fault = true` means the Supabase call reports an error (or throws),
  which `CacheService` catches.
* JavaScript coordinates (floats) are modelled as `Rat`; `parseFloat` on the
  numeric strings returned by Nominatim is modelled as already-parsed `Rat`
  fields, and Mapbox's `relevance > 0.8` comparison is a `Rat` comparison.
* JavaScript truthiness at the two call sites that test a cached value is
  modelled per the type stored there: a cached string is falsy exactly when
  it is empty, a cached geocode result object is always truthy, and a `get`
  miss (`null`) is falsy.
-/

namespace DisasterBackend

/-- One row of the `cache` table: a value plus its absolute expiry
(milliseconds). -/
structure CacheEntry (α : Type) where
  value : α
  expiresAt : Nat
deriving Repr, DecidableEq

/-- The cache table, keyed by `key text PRIMARY KEY`. -/
abbrev CacheState (α : Type) := List (String × CacheEntry α)

/-- First entry stored under `key` (the primary key makes it unique in the
real table; upserts below preserve that shape). -/
def lookupEntry (st : CacheState α) (key : String) : Option (CacheEntry α) :=
  (st.find? (fun p => p.1 = key)).map (·.2)

/-- Raw row deletion (`supabase.from('cache').delete().eq('key', key)`). -/
def rawDelete (st : CacheState α) (key : String) : CacheState α :=
  st.filter (fun p => ¬ p.1 = key)

/-- Raw upsert (`supabase.from('cache').upsert({key, value, expires_at})`):
whole-row replacement keyed by the primary key. -/
def rawUpsert (st : CacheState α) (key : String) (e : CacheEntry α) :
    CacheState α :=
  (key, e) :: rawDelete st key

/-- `supabase.from('cache').select('value, expires_at').eq('key', key)
.single()`: errors when the medium is down or when there is no row. -/
def storageSelectSingle (fault : Bool) (st : CacheState α) (key : String) :
    Except String (CacheEntry α) :=
  if fault then .error "storage unavailable"
  else
    match lookupEntry st key with
    | some e => .ok e
    | none => .error "PGRST116: zero rows"

/-- Raw delete through the storage medium. -/
def storageDelete (fault : Bool) (st : CacheState α) (key : String) :
    Except String (CacheState α) :=
  if fault then .error "storage unavailable" else .ok (rawDelete st key)

/-- Raw upsert through the storage medium. -/
def storageUpsert (fault : Bool) (st : CacheState α) (key : String)
    (e : CacheEntry α) : Except String (CacheState α) :=
  if fault then .error "storage unavailable" else .ok (rawUpsert st key e)

namespace CacheService

/-- `CacheService.delete(key)`: returns `false` (and leaves the table
unchanged) on a storage error, `true` after removing the row. -/
def delete (fault : Bool) (st : CacheState α) (key : String) :
    Bool × CacheState α :=
  match storageDelete fault st key with
  | .error _ => (false, st)
  | .ok st' => (true, st')

/-- `CacheService.get(key)`: storage error or no row gives a miss (`null`,
modelled `none`); an entry with `expires_at < now` (strict, as in
`new Date(data.expires_at) < new Date()`) is deleted and reported as a
miss; otherwise the value is returned. -/
def get (fault : Bool) (st : CacheState α) (key : String) (now : Nat) :
    Option α × CacheState α :=
  match storageSelectSingle fault st key with
  | .error _ => (none, st)
  | .ok e =>
    if e.expiresAt < now then
      (none, (delete fault st key).2)
    else
      (some e.value, st)

/-- `CacheService.set(key, value, ttlMinutes)`: expiry is
`Date.now() + ttlMinutes * 60 * 1000`; returns `false` and leaves the table
unchanged on a storage error, `true` after the upsert. -/
def set (fault : Bool) (st : CacheState α) (key : String) (v : α)
    (ttlMinutes : Nat) (now : Nat) : Bool × CacheState α :=
  match storageUpsert fault st key ⟨v, now + ttlMinutes * 60 * 1000⟩ with
  | .error _ => (false, st)
  | .ok st' => (true, st')

end CacheService

/-! ## Geocoding route (src/routes/geocoding.js) -/

/-- The normalized geocode payload built by `geocodeLocation`; coordinates
and provider are `null` (here `none`) in the terminal negative result. -/
structure GeocodeResult where
  latitude : Option Rat
  longitude : Option Rat
  formatted_address : String
  geocoding_provider : Option String
  confidence : String
deriving Repr, DecidableEq

/-- Environment configuration read from `process.env`; `none` means the
variable is unset, so the corresponding adapter is skipped. -/
structure Env where
  googleMapsApiKey : Option String
  mapboxApiKey : Option String
deriving Repr, DecidableEq

/-- One hit in the Google Maps response's `results` array. -/
structure GoogleHit where
  lat : Rat
  lng : Rat
  formatted_address : String
deriving Repr, DecidableEq

/-- The parsed Google Maps geocoding response body. -/
structure GoogleResp where
  status : String
  results : List GoogleHit
deriving Repr, DecidableEq

/-- One feature of the Mapbox response: `center` is `[lng, lat]`. -/
structure MapboxFeature where
  centerLng : Rat
  centerLat : Rat
  place_name : String
  relevance : Rat
deriving Repr, DecidableEq

/-- The parsed Mapbox response body; `features` is `none` when the field is
absent (`data.features` undefined). -/
structure MapboxResp where
  features : Option (List MapboxFeature)
deriving Repr, DecidableEq

/-- One hit of the Nominatim response array; `lat`/`lon` arrive as numeric
strings in JS and are modelled already parsed (`parseFloat`). -/
structure OsmHit where
  lat : Rat
  lon : Rat
  display_name : String
deriving Repr, DecidableEq

/-- Outcome of one `fetch` + `.json()` round trip: either a throw (network
failure, bad JSON, ...) or a parsed body. -/
inductive FetchOutcome (α : Type) where
  | err : FetchOutcome α
  | ok : α → FetchOutcome α
deriving Repr, DecidableEq

/-- The behaviour of the three external geocoding services during one
resolution: what each fetch would yield if performed. -/
structure ProviderBehaviour where
  google : FetchOutcome GoogleResp
  mapbox : FetchOutcome MapboxResp
  osm : FetchOutcome (List OsmHit)
deriving Repr, DecidableEq

/-- Identifiers for the provider fetches, recorded in invocation order. -/
inductive Provider where
  | googleMaps
  | mapbox
  | openstreetmap
deriving Repr, DecidableEq

/-- The Google Maps block (lines 101-125): a throw is caught (`none`); a
body with `status === 'OK'` and a non-empty `results` yields the normalized
result with provider `google_maps` and confidence `high`. -/
def googleAttempt : FetchOutcome GoogleResp → Option GeocodeResult
  | .err => none
  | .ok data =>
    if data.status = "OK" then
      match data.results with
      | r :: _ =>
        some { latitude := some r.lat, longitude := some r.lng,
               formatted_address := r.formatted_address,
               geocoding_provider := some "google_maps", confidence := "high" }
      | [] => none
    else none

/-- The Mapbox block (lines 128-152): `data.features && data.features.length
> 0`; confidence is `high` when `relevance > 0.8`, else `medium`. -/
def mapboxAttempt : FetchOutcome MapboxResp → Option GeocodeResult
  | .err => none
  | .ok data =>
    match data.features with
    | some (f :: _) =>
      some { latitude := some f.centerLat, longitude := some f.centerLng,
             formatted_address := f.place_name,
             geocoding_provider := some "mapbox",
             confidence := if f.relevance > 0.8 then "high" else "medium" }
    | _ => none

/-- The OpenStreetMap block (lines 155-177): any non-empty response array
wins, with provider `openstreetmap` and confidence `medium`. -/
def osmAttempt : FetchOutcome (List OsmHit) → Option GeocodeResult
  | .err => none
  | .ok data =>
    match data with
    | h :: _ =>
      some { latitude := some h.lat, longitude := some h.lon,
             formatted_address := h.display_name,
             geocoding_provider := some "openstreetmap",
             confidence := "medium" }
    | [] => none

/-! ### Cache keys: `Buffer.from(text).toString('base64')`

`Buffer.from` encodes the string as UTF-8; `toString('base64')` is standard
base64 with `=` padding. Both are modelled byte-for-byte so that key
determinism and injectivity are facts about the actual derivation. -/

/-- UTF-8 encoding of one Unicode scalar value (as `Buffer.from` performs
it on each code point of a well-formed string). -/
def utf8EncodeCp (n : Nat) : List Nat :=
  if n < 128 then [n]
  else if n < 2048 then [192 + n / 64, 128 + n % 64]
  else if n < 65536 then [224 + n / 4096, 128 + n / 64 % 64, 128 + n % 64]
  else [240 + n / 262144, 128 + n / 4096 % 64, 128 + n / 64 % 64, 128 + n % 64]

/-- UTF-8 encoding of a sequence of code points. -/
def utf8EncodeList : List Nat → List Nat
  | [] => []
  | c :: cs => utf8EncodeCp c ++ utf8EncodeList cs

/-- The 64-character base64 alphabet. -/
def base64Alphabet : List Char :=
  ['A','B','C','D','E','F','G','H','I','J','K','L','M','N','O','P','Q','R',
   'S','T','U','V','W','X','Y','Z','a','b','c','d','e','f','g','h','i','j',
   'k','l','m','n','o','p','q','r','s','t','u','v','w','x','y','z','0','1',
   '2','3','4','5','6','7','8','9','+','/']

/-- Character for one sextet. -/
def b64Char (i : Nat) : Char := base64Alphabet.getD i '='

/-- Base64 encoding with `=` padding, three input bytes per four output
characters. -/
def base64Encode : List Nat → List Char
  | b1 :: b2 :: b3 :: rest =>
    b64Char (b1 / 4) :: b64Char (b1 % 4 * 16 + b2 / 16) ::
      b64Char (b2 % 16 * 4 + b3 / 64) :: b64Char (b3 % 64) :: base64Encode rest
  | [b1, b2] =>
    [b64Char (b1 / 4), b64Char (b1 % 4 * 16 + b2 / 16), b64Char (b2 % 16 * 4), '=']
  | [b1] => [b64Char (b1 / 4), b64Char (b1 % 4 * 16), '=', '=']
  | [] => []

/-- `Buffer.from(s).toString('base64')` on a well-formed string. -/
def bufferBase64 (s : String) : String :=
  String.mk (base64Encode (utf8EncodeList (s.data.map Char.toNat)))

/-- The geocode cache key (line 83):
`` `geocode_${Buffer.from(locationName).toString('base64')}` ``. -/
def geocodeKey (locationName : String) : String :=
  "geocode_" ++ bufferBase64 locationName

/-- The extraction cache key (line 31):
`` `location_extract_${Buffer.from(description).toString('base64')}` ``. -/
def locationExtractKey (description : String) : String :=
  "location_extract_" ++ bufferBase64 description

/-- Index of a character in the base64 alphabet. -/
def b64Index (c : Char) : Option Nat := base64Alphabet.indexOf? c

/-- Base64 decoding — a left inverse of `base64Encode`, used to establish
that key derivation is injective. Processes four characters per block and
honours `=` padding. -/
def base64Decode : List Char → Option (List Nat)
  | [] => some []
  | c1 :: c2 :: c3 :: c4 :: rest =>
    match b64Index c1, b64Index c2 with
    | some i1, some i2 =>
      if c3 = '=' then
        if c4 = '=' ∧ rest = [] then some [i1 * 4 + i2 / 16] else none
      else
        match b64Index c3 with
        | some i3 =>
          if c4 = '=' then
            if rest = [] then some [i1 * 4 + i2 / 16, i2 % 16 * 16 + i3 / 4]
            else none
          else
            match b64Index c4 with
            | some i4 =>
              (base64Decode rest).map
                (fun bs => (i1 * 4 + i2 / 16) :: (i2 % 16 * 16 + i3 / 4) ::
                  (i3 % 4 * 64 + i4) :: bs)
            | none => none
        | none => none
    | _, _ => none
  | _ => none

/-- Decode one UTF-8-encoded code point from the front of a byte list — a
left inverse of `utf8EncodeCp`, used to establish that key derivation is
injective. -/
def utf8DecodeCp : List Nat → Option (Nat × List Nat)
  | [] => none
  | b :: rest =>
    if b < 128 then some (b, rest)
    else if b < 224 then
      match rest with
      | b2 :: rest2 => some ((b - 192) * 64 + (b2 - 128), rest2)
      | [] => none
    else if b < 240 then
      match rest with
      | b2 :: b3 :: rest2 =>
        some ((b - 224) * 4096 + (b2 - 128) * 64 + (b3 - 128), rest2)
      | _ => none
    else
      match rest with
      | b2 :: b3 :: b4 :: rest2 =>
        some ((b - 240) * 262144 + (b2 - 128) * 4096 + (b3 - 128) * 64
          + (b4 - 128), rest2)
      | _ => none

/-- The geocode-key cache state: entries under `geocode_...` keys hold
normalized geocode payloads. -/
abbrev GeoCache := CacheState GeocodeResult

/-- Result of one `geocodeLocation` call: the returned payload, the cache
state afterwards, and the providers fetched, in order. -/
structure GeoOutcome where
  result : GeocodeResult
  state : GeoCache
  invoked : List Provider
deriving Repr, DecidableEq

/-- The OpenStreetMap fallthrough plus the terminal negative write
(lines 154-183): OSM is always fetched (no credential gate); on no match
the prepared negative `result` is cached for 60 minutes. -/
def osmStep (behaviour : ProviderBehaviour) (st : GeoCache) (cacheKey : String)
    (now : Nat) (negative : GeocodeResult) (inv : List Provider) : GeoOutcome :=
  match osmAttempt behaviour.osm with
  | some r =>
    ⟨r, (CacheService.set false st cacheKey r 1440 now).2,
      inv ++ [Provider.openstreetmap]⟩
  | none =>
    ⟨negative, (CacheService.set false st cacheKey negative 60 now).2,
      inv ++ [Provider.openstreetmap]⟩

/-- The Mapbox fallthrough (lines 128-152): fetched only when
`process.env.MAPBOX_API_KEY` is set; a match is cached for 1440 minutes and
returned, otherwise control falls through to OpenStreetMap. -/
def mapboxStep (env : Env) (behaviour : ProviderBehaviour) (st : GeoCache)
    (cacheKey : String) (now : Nat) (negative : GeocodeResult)
    (inv : List Provider) : GeoOutcome :=
  if env.mapboxApiKey.isSome then
    match mapboxAttempt behaviour.mapbox with
    | some r =>
      ⟨r, (CacheService.set false st cacheKey r 1440 now).2,
        inv ++ [Provider.mapbox]⟩
    | none => osmStep behaviour st cacheKey now negative (inv ++ [Provider.mapbox])
  else osmStep behaviour st cacheKey now negative inv

/-- The Google Maps fallthrough (lines 101-125): fetched only when
`process.env.GOOGLE_MAPS_API_KEY` is set; a match is cached for 1440
minutes and returned, otherwise control falls through to Mapbox. -/
def googleStep (env : Env) (behaviour : ProviderBehaviour) (st : GeoCache)
    (cacheKey : String) (now : Nat) (negative : GeocodeResult) : GeoOutcome :=
  if env.googleMapsApiKey.isSome then
    match googleAttempt behaviour.google with
    | some r =>
      ⟨r, (CacheService.set false st cacheKey r 1440 now).2, [Provider.googleMaps]⟩
    | none => mapboxStep env behaviour st cacheKey now negative [Provider.googleMaps]
  else mapboxStep env behaviour st cacheKey now negative []

/-- The prepared terminal result (lines 92-98): null coordinates, the input
as formatted address, `null` provider, confidence `unknown`. -/
def negativeResult (locationName : String) : GeocodeResult :=
  { latitude := none, longitude := none, formatted_address := locationName,
    geocoding_provider := none, confidence := "unknown" }

/-- `geocodeLocation(locationName)` (lines 82-184): cache check first — a
cached payload (an object, hence truthy) is returned with no provider
fetched; on a miss the provider chain runs starting from the prepared
negative result. -/
def geocodeLocation (env : Env) (behaviour : ProviderBehaviour) (st : GeoCache)
    (now : Nat) (locationName : String) : GeoOutcome :=
  let cacheKey := geocodeKey locationName
  let g := CacheService.get false st cacheKey now
  match g.1 with
  | some cachedResult => ⟨cachedResult, g.2, []⟩
  | none => googleStep env behaviour g.2 cacheKey now (negativeResult locationName)

/-! ### The POST / handler's extraction step (lines 30-62) -/

/-- Outcome of the Gemini `generateContent` call chain: a throw anywhere in
it, or the raw response text. -/
inductive GeminiOutcome where
  | err
  | ok (text : String)
deriving Repr, DecidableEq

/-- The extraction-key cache state: entries under `location_extract_...`
keys hold extracted strings. -/
abbrev ExtCache := CacheState String

/-- JavaScript truthiness of `extractedLocation` after the cache read: a
miss (`null`) and the empty string are falsy. -/
def jsFalsyStrOpt : Option String → Bool
  | none => true
  | some s => s = ""

/-- The extraction step (lines 30-62): on a falsy cache read, call Gemini;
on success the trimmed text is cached for 60 minutes; a throw is caught and
yields the `'NONE'` sentinel (note: the catch branch performs no cache
write). Returns `(extractedLocation, cache after, whether Gemini ran)`. -/
def extractionStep (gemini : GeminiOutcome) (est : ExtCache) (now : Nat)
    (description : String) : String × ExtCache × Bool :=
  let cacheKey := locationExtractKey description
  let g := CacheService.get false est cacheKey now
  if jsFalsyStrOpt g.1 then
    match gemini with
    | .ok text =>
      let extractedLocation := text.trim
      (extractedLocation,
        (CacheService.set false g.2 cacheKey extractedLocation 60 now).2, true)
    | .err => ("NONE", g.2, true)
  else
    (g.1.getD "", g.2, false)

/-- The JSON body assembled by the POST / handler (lines 67-72), plus the
observable effects needed by the claims (final cache states, whether the
Gemini fetch ran, which geocoding providers were fetched). -/
structure PostResult where
  original_description : String
  extracted_location : Option String
  location_name : String
  geocode : GeocodeResult
  extCacheOut : ExtCache
  geoCacheOut : GeoCache
  geminiInvoked : Bool
  providersInvoked : List Provider
deriving Repr, DecidableEq

/-- The POST / handler after validation (lines 25-75): optional extraction,
fallback to the original description when the sentinel (or a falsy cached
value standing in for it) is produced, then `geocodeLocation`. -/
def handlePost (env : Env) (behaviour : ProviderBehaviour)
    (gemini : GeminiOutcome) (est : ExtCache) (gst : GeoCache) (now : Nat)
    (description : String) (extractLocation : Bool) : PostResult :=
  if extractLocation then
    let e := extractionStep gemini est now description
    let locationName := if e.1 ≠ "NONE" then e.1 else description
    let geo := geocodeLocation env behaviour gst now locationName
    { original_description := description,
      extracted_location := some locationName,
      location_name := locationName, geocode := geo.result,
      extCacheOut := e.2.1, geoCacheOut := geo.state,
      geminiInvoked := e.2.2, providersInvoked := geo.invoked }
  else
    let geo := geocodeLocation env behaviour gst now description
    { original_description := description, extracted_location := none,
      location_name := description, geocode := geo.result,
      extCacheOut := est, geoCacheOut := geo.state,
      geminiInvoked := false, providersInvoked := geo.invoked }

/-! ## Cache-layer lemmas -/

theorem lookupEntry_rawDelete_self (st : CacheState α) (k : String) :
    lookupEntry (rawDelete st k) k = none := by
  simp only [lookupEntry, Option.map_eq_none']
  rw [List.find?_eq_none]
  intro x hx
  simp only [rawDelete, List.mem_filter] at hx
  simpa using hx.2

theorem lookupEntry_rawUpsert_self (st : CacheState α) (k : String)
    (e : CacheEntry α) : lookupEntry (rawUpsert st k e) k = some e := by
  simp [rawUpsert, lookupEntry]

theorem get_fault_free_miss (st : CacheState α) (k : String) (now : Nat)
    (h : lookupEntry st k = none) :
    CacheService.get false st k now = (none, st) := by
  simp [CacheService.get, storageSelectSingle, h]

theorem get_fault_free_live (st : CacheState α) (k : String) (now : Nat)
    (e : CacheEntry α) (h : lookupEntry st k = some e)
    (hl : ¬ e.expiresAt < now) :
    CacheService.get false st k now = (some e.value, st) := by
  simp [CacheService.get, storageSelectSingle, h, hl]

theorem get_fault_free_expired (st : CacheState α) (k : String) (now : Nat)
    (e : CacheEntry α) (h : lookupEntry st k = some e)
    (hl : e.expiresAt < now) :
    CacheService.get false st k now = (none, rawDelete st k) := by
  simp [CacheService.get, storageSelectSingle, CacheService.delete,
    storageDelete, h, hl]

theorem set_fault_free (st : CacheState α) (k : String) (v : α)
    (ttl now : Nat) :
    CacheService.set false st k v ttl now =
      (true, rawUpsert st k ⟨v, now + ttl * 60 * 1000⟩) := by
  simp [CacheService.set, storageUpsert]

/-- C6: For every key, value, and TTL, and for every failure of the
underlying storage medium during a cache get, set, or delete, the cache
layer swallows the failure and reports it as a miss (`get` returns the miss
value `none`) or a no-op (`set`/`delete` return `false` and leave the table
unchanged); no fault propagates to the caller (the operations are total). -/
theorem cache_swallows_storage_faults (st : CacheState α) (k : String)
    (v : α) (ttl now t : Nat) :
    CacheService.get true st k t = (none, st)
      ∧ CacheService.set true st k v ttl now = (false, st)
      ∧ CacheService.delete true st k = (false, st) := by
  refine ⟨?_, ?_, ?_⟩ <;>
    simp [CacheService.get, CacheService.set, CacheService.delete,
      storageSelectSingle, storageUpsert, storageDelete]

/-- C7: For every key, value, positive TTL, and prior cache state (present,
expired, or absent entry), `set(k, v, ttl)` replaces any existing entry for
`k` with value `v` and expiry `now + ttl` minutes, and a `get(k)` performed
immediately afterward (storage available) returns `v`. -/
theorem set_then_get_returns_value (st : CacheState α) (k : String) (v : α)
    (ttl now : Nat) (httl : 0 < ttl) :
    lookupEntry (CacheService.set false st k v ttl now).2 k
        = some ⟨v, now + ttl * 60 * 1000⟩
      ∧ (CacheService.get false (CacheService.set false st k v ttl now).2 k
          now).1 = some v := by
  have hs := set_fault_free st k v ttl now
  have hl : lookupEntry (CacheService.set false st k v ttl now).2 k
      = some ⟨v, now + ttl * 60 * 1000⟩ := by
    rw [hs]; exact lookupEntry_rawUpsert_self st k _
  refine ⟨hl, ?_⟩
  have hg := get_fault_free_live (CacheService.set false st k v ttl now).2 k
    now ⟨v, now + ttl * 60 * 1000⟩ hl
    (by show ¬ now + ttl * 60 * 1000 < now; omega)
  rw [hg]

/-- C7 witness. -/
theorem set_then_get_returns_value_witness :
    lookupEntry (CacheService.set false [("k", ⟨"old", 7⟩)] "k" "new" 1 5).2 "k"
        = some ⟨"new", 5 + 1 * 60 * 1000⟩
      ∧ (CacheService.get false
          (CacheService.set false [("k", ⟨"old", 7⟩)] "k" "new" 1 5).2 "k"
          5).1 = some "new" :=
  set_then_get_returns_value [("k", ⟨"old", 7⟩)] "k" "new" 1 5 (by decide)

/-- C2 counterexample: the claim says a `get` at any time `t ≥ expiresAt`
returns a miss, but `CacheService.get` uses the strict comparison
`new Date(data.expires_at) < new Date()`, so at `t = expiresAt` the cached
value is still returned. Instance: entry expiring at 100, read at 100. -/
theorem ttl_boundary_claim_false :
    ¬ (∀ (st : CacheState String) (k : String) (e : CacheEntry String)
        (t : Nat), lookupEntry st k = some e → e.expiresAt ≤ t →
        (CacheService.get false st k t).1 = none) := by
  intro h
  have := h [("k", ⟨"v", 100⟩)] "k" ⟨"v", 100⟩ 100 (by rfl) (by decide)
  rw [get_fault_free_live [("k", ⟨"v", 100⟩)] "k" 100 ⟨"v", 100⟩ (by rfl)
    (by decide)] at this
  exact Option.noConfusion this

/-- C2 (amended): a `get` at `t ≤ expiresAt` returns the cached value and
leaves the state unchanged; a `get` at `t > expiresAt` (strictly after
expiry) returns a miss and deletes the entry first, so the entry is absent
afterward. -/
theorem ttl_correctness (st : CacheState α) (k : String) (e : CacheEntry α)
    (t : Nat) (h : lookupEntry st k = some e) :
    (t ≤ e.expiresAt → CacheService.get false st k t = (some e.value, st))
      ∧ (e.expiresAt < t →
          (CacheService.get false st k t).1 = none
            ∧ lookupEntry (CacheService.get false st k t).2 k = none) := by
  constructor
  · intro hle
    exact get_fault_free_live st k t e h (by omega)
  · intro hlt
    have hg := get_fault_free_expired st k t e h hlt
    rw [hg]
    exact ⟨rfl, lookupEntry_rawDelete_self st k⟩

/-- C2 witness: entry expiring at 100 — read at 100 still returns the
value; read at 101 misses and removes the entry. -/
theorem ttl_correctness_witness :
    (CacheService.get false [("k", (⟨"v", 100⟩ : CacheEntry String))] "k" 100
        = (some "v", [("k", ⟨"v", 100⟩)])
      ∧ ((CacheService.get false [("k", (⟨"v", 100⟩ : CacheEntry String))]
            "k" 101).1 = none
          ∧ lookupEntry (CacheService.get false
              [("k", (⟨"v", 100⟩ : CacheEntry String))] "k" 101).2 "k"
              = none)) :=
  ⟨(ttl_correctness [("k", ⟨"v", 100⟩)] "k" ⟨"v", 100⟩ 100 (by rfl)).1
      (by decide),
    (ttl_correctness [("k", ⟨"v", 100⟩)] "k" ⟨"v", 100⟩ 101 (by rfl)).2
      (by decide)⟩

/-! ## Fallback-resolver lemmas -/

theorem googleAttempt_provider (x : FetchOutcome GoogleResp)
    (r : GeocodeResult) (h : googleAttempt x = some r) :
    r.geocoding_provider = some "google_maps" := by
  cases x with
  | err => simp [googleAttempt] at h
  | ok data =>
    simp only [googleAttempt] at h
    split at h
    · cases hr : data.results with
      | nil => rw [hr] at h; simp at h
      | cons a t => rw [hr] at h; simp at h; rw [← h]
    · simp at h

theorem mapboxAttempt_provider (x : FetchOutcome MapboxResp)
    (r : GeocodeResult) (h : mapboxAttempt x = some r) :
    r.geocoding_provider = some "mapbox" := by
  cases x with
  | err => simp [mapboxAttempt] at h
  | ok data =>
    simp only [mapboxAttempt] at h
    split at h
    · simp at h; rw [← h]
    · simp at h

theorem osmAttempt_provider (x : FetchOutcome (List OsmHit))
    (r : GeocodeResult) (h : osmAttempt x = some r) :
    r.geocoding_provider = some "openstreetmap" := by
  cases x with
  | err => simp [osmAttempt] at h
  | ok data =>
    simp only [osmAttempt] at h
    split at h
    · simp at h; rw [← h]
    · simp at h

theorem geocodeLocation_hit (env : Env) (behaviour : ProviderBehaviour)
    (st : GeoCache) (now : Nat) (name : String) (v : GeocodeResult)
    (hhit : (CacheService.get false st (geocodeKey name) now).1 = some v) :
    geocodeLocation env behaviour st now name
      = ⟨v, (CacheService.get false st (geocodeKey name) now).2, []⟩ := by
  simp [geocodeLocation, hhit]

theorem geocodeLocation_miss (env : Env) (behaviour : ProviderBehaviour)
    (st : GeoCache) (now : Nat) (name : String)
    (hmiss : (CacheService.get false st (geocodeKey name) now).1 = none) :
    geocodeLocation env behaviour st now name
      = googleStep env behaviour
          (CacheService.get false st (geocodeKey name) now).2 (geocodeKey name)
          now (negativeResult name) := by
  simp [geocodeLocation, hmiss]

/-- C4: For every resolution whose geocode cache lookup hits (including a
cached negative result), `geocodeLocation` returns the cached
`GeocodeResult` immediately and no provider adapter is fetched (the
invocation trace is empty). -/
theorem cache_hit_no_provider_invoked (env : Env)
    (behaviour : ProviderBehaviour) (st : GeoCache) (now : Nat)
    (name : String) (v : GeocodeResult)
    (hhit : (CacheService.get false st (geocodeKey name) now).1 = some v) :
    geocodeLocation env behaviour st now name
      = ⟨v, (CacheService.get false st (geocodeKey name) now).2, []⟩ :=
  geocodeLocation_hit env behaviour st now name v hhit

/-- C4 witness: a cached (negative) result is returned unchanged with an
empty provider trace, whatever the provider behaviour. -/
theorem cache_hit_no_provider_invoked_witness :
    geocodeLocation ⟨some "gk", some "mk"⟩
        ⟨.ok ⟨"OK", [⟨1, 2, "x"⟩]⟩, .err, .err⟩
        [(geocodeKey "Paris", ⟨negativeResult "Paris", 50⟩)] 7 "Paris"
      = ⟨negativeResult "Paris",
          [(geocodeKey "Paris", ⟨negativeResult "Paris", 50⟩)], []⟩ :=
  cache_hit_no_provider_invoked ⟨some "gk", some "mk"⟩
    ⟨.ok ⟨"OK", [⟨1, 2, "x"⟩]⟩, .err, .err⟩
    [(geocodeKey "Paris", ⟨negativeResult "Paris", 50⟩)] 7 "Paris"
    (negativeResult "Paris")
    (by rw [get_fault_free_live _ _ _ ⟨negativeResult "Paris", 50⟩ (by decide)
      (by decide)])

/-- C1: On a geocode cache miss the adapters are tried in the fixed order
Google Maps, Mapbox, OpenStreetMap. A configured adapter returning a match
wins outright: its normalized result (carrying its provider identifier) is
cached at the long TTL (1440 minutes) and returned, and no later adapter is
fetched. A later adapter is fetched only if every earlier one is
unconfigured (no API key) or produced no match (zero matches or a caught
error — `googleAttempt`/`mapboxAttempt` return `none` for both, and the
resolution itself is a total function, so errors never abort it). -/
theorem fallback_priority_order (env : Env) (behaviour : ProviderBehaviour)
    (st : GeoCache) (now : Nat) (name : String)
    (hmiss : (CacheService.get false st (geocodeKey name) now).1 = none) :
    (∀ r, env.googleMapsApiKey.isSome = true →
      googleAttempt behaviour.google = some r →
      geocodeLocation env behaviour st now name
          = ⟨r, (CacheService.set false
              (CacheService.get false st (geocodeKey name) now).2
              (geocodeKey name) r 1440 now).2, [Provider.googleMaps]⟩
        ∧ r.geocoding_provider = some "google_maps")
    ∧ (∀ r, (env.googleMapsApiKey = none
          ∨ googleAttempt behaviour.google = none) →
      env.mapboxApiKey.isSome = true →
      mapboxAttempt behaviour.mapbox = some r →
      (geocodeLocation env behaviour st now name).result = r
        ∧ (geocodeLocation env behaviour st now name).state
            = (CacheService.set false
                (CacheService.get false st (geocodeKey name) now).2
                (geocodeKey name) r 1440 now).2
        ∧ Provider.openstreetmap
            ∉ (geocodeLocation env behaviour st now name).invoked
        ∧ r.geocoding_provider = some "mapbox")
    ∧ (∀ r, (env.googleMapsApiKey = none
          ∨ googleAttempt behaviour.google = none) →
      (env.mapboxApiKey = none ∨ mapboxAttempt behaviour.mapbox = none) →
      osmAttempt behaviour.osm = some r →
      (geocodeLocation env behaviour st now name).result = r
        ∧ (geocodeLocation env behaviour st now name).state
            = (CacheService.set false
                (CacheService.get false st (geocodeKey name) now).2
                (geocodeKey name) r 1440 now).2
        ∧ r.geocoding_provider = some "openstreetmap")
    ∧ (Provider.googleMaps ∈ (geocodeLocation env behaviour st now name).invoked
        → env.googleMapsApiKey.isSome = true)
    ∧ (Provider.mapbox ∈ (geocodeLocation env behaviour st now name).invoked
        → env.mapboxApiKey.isSome = true
          ∧ (env.googleMapsApiKey = none
              ∨ googleAttempt behaviour.google = none))
    ∧ (Provider.openstreetmap
          ∈ (geocodeLocation env behaviour st now name).invoked
        → (env.googleMapsApiKey = none
              ∨ googleAttempt behaviour.google = none)
          ∧ (env.mapboxApiKey = none
              ∨ mapboxAttempt behaviour.mapbox = none)) := by
  rw [geocodeLocation_miss env behaviour st now name hmiss]
  rcases hGK : env.googleMapsApiKey with _ | gk <;>
    rcases hMK : env.mapboxApiKey with _ | mk <;>
    rcases hGA : googleAttempt behaviour.google with _ | r1 <;>
    rcases hMA : mapboxAttempt behaviour.mapbox with _ | r2 <;>
    rcases hOA : osmAttempt behaviour.osm with _ | r3 <;>
    simp_all [googleStep, mapboxStep, osmStep,
      googleAttempt_provider behaviour.google,
      mapboxAttempt_provider behaviour.mapbox,
      osmAttempt_provider behaviour.osm]

/-- C1 witness (the spec's own example shape): Google configured but
failing, Mapbox configured and matching, OSM unused — the Mapbox result is
returned, cached at 1440 minutes, and OSM is never fetched. -/
theorem fallback_priority_order_witness :
    (geocodeLocation ⟨some "gk", some "mk"⟩
        ⟨.err, .ok ⟨some [⟨-7398/100, 40715/1000, "LES, Manhattan", 9/10⟩]⟩,
          .ok []⟩ [] 0 "Lower East Side").result
      = ⟨some (40715/1000), some (-7398/100), "LES, Manhattan",
          some "mapbox", "high"⟩
    ∧ Provider.openstreetmap
        ∉ (geocodeLocation ⟨some "gk", some "mk"⟩
            ⟨.err, .ok ⟨some [⟨-7398/100, 40715/1000, "LES, Manhattan", 9/10⟩]⟩,
              .ok []⟩ [] 0 "Lower East Side").invoked := by
  have h := (fallback_priority_order ⟨some "gk", some "mk"⟩
    ⟨.err, .ok ⟨some [⟨-7398/100, 40715/1000, "LES, Manhattan", 9/10⟩]⟩,
      .ok []⟩ [] 0 "Lower East Side" (by rfl)).2.1
    ⟨some (40715/1000), some (-7398/100), "LES, Manhattan",
      some "mapbox", "high"⟩ (Or.inr rfl) rfl (by norm_num [mapboxAttempt])
  exact ⟨h.1, h.2.2.1⟩

/-- C3: When every adapter is exhausted without a match (each unconfigured,
erroring, or matchless) on a cache miss, the resolver returns — never
throws (`geocodeLocation` is total) — the terminal result with null
coordinates, `formattedAddress = locationName`, the null/`none` provider
sentinel and confidence `unknown`; it caches that negative result at the
short TTL (60 minutes), and a second resolution of the same name within
that TTL window returns the identical cached result with no adapter
fetched. -/
theorem negative_result_cached_short_ttl (env : Env)
    (behaviour : ProviderBehaviour) (st : GeoCache) (now : Nat)
    (name : String)
    (hmiss : (CacheService.get false st (geocodeKey name) now).1 = none)
    (hg : env.googleMapsApiKey = none ∨ googleAttempt behaviour.google = none)
    (hm : env.mapboxApiKey = none ∨ mapboxAttempt behaviour.mapbox = none)
    (ho : osmAttempt behaviour.osm = none) :
    (geocodeLocation env behaviour st now name).result = negativeResult name
      ∧ (geocodeLocation env behaviour st now name).state
          = (CacheService.set false
              (CacheService.get false st (geocodeKey name) now).2
              (geocodeKey name) (negativeResult name) 60 now).2
      ∧ ∀ (env' : Env) (behaviour' : ProviderBehaviour) (now' : Nat),
          now' ≤ now + 60 * 60 * 1000 →
          geocodeLocation env' behaviour'
              (geocodeLocation env behaviour st now name).state now' name
            = ⟨negativeResult name,
                (geocodeLocation env behaviour st now name).state, []⟩ := by
  have hout : geocodeLocation env behaviour st now name
      = ⟨negativeResult name,
          (CacheService.set false
            (CacheService.get false st (geocodeKey name) now).2
            (geocodeKey name) (negativeResult name) 60 now).2,
          (geocodeLocation env behaviour st now name).invoked⟩ := by
    rw [geocodeLocation_miss env behaviour st now name hmiss]
    rcases hGK : env.googleMapsApiKey with _ | gk <;>
      rcases hMK : env.mapboxApiKey with _ | mk <;>
      simp_all [googleStep, mapboxStep, osmStep]
  refine ⟨by rw [hout], by rw [hout], ?_⟩
  intro env' behaviour' now' hwin
  have hst : lookupEntry (geocodeLocation env behaviour st now name).state
      (geocodeKey name)
      = some ⟨negativeResult name, now + 60 * 60 * 1000⟩ := by
    rw [hout]
    rw [set_fault_free]
    exact lookupEntry_rawUpsert_self _ _ _
  have hhit := get_fault_free_live
    (geocodeLocation env behaviour st now name).state (geocodeKey name) now'
    ⟨negativeResult name, now + 60 * 60 * 1000⟩ hst
    (by show ¬ now + 60 * 60 * 1000 < now'; omega)
  have := geocodeLocation_hit env' behaviour'
    (geocodeLocation env behaviour st now name).state now' name
    (negativeResult name) (by rw [hhit])
  rw [this, hhit]

/-- C3 witness: with no keys configured and OSM returning zero hits for
`"Nowhereland"`, the first call yields the negative result and a second
call 30 minutes later returns it from cache untouched. -/
theorem negative_result_cached_short_ttl_witness :
    (geocodeLocation ⟨none, none⟩ ⟨.err, .err, .ok []⟩ [] 0
        "Nowhereland").result = negativeResult "Nowhereland"
      ∧ geocodeLocation ⟨some "gk", some "mk"⟩
          ⟨.ok ⟨"OK", [⟨1, 2, "hit"⟩]⟩, .err, .err⟩
          (geocodeLocation ⟨none, none⟩ ⟨.err, .err, .ok []⟩ [] 0
            "Nowhereland").state (30 * 60 * 1000) "Nowhereland"
        = ⟨negativeResult "Nowhereland",
            (geocodeLocation ⟨none, none⟩ ⟨.err, .err, .ok []⟩ [] 0
              "Nowhereland").state, []⟩ := by
  have h := negative_result_cached_short_ttl ⟨none, none⟩ ⟨.err, .err, .ok []⟩
    [] 0 "Nowhereland" (by rfl) (Or.inl rfl) (Or.inl rfl) rfl
  exact ⟨h.1, h.2.2 ⟨some "gk", some "mk"⟩
    ⟨.ok ⟨"OK", [⟨1, 2, "hit"⟩]⟩, .err, .err⟩ (30 * 60 * 1000) (by omega)⟩

/-! ## Extraction-step lemmas -/

theorem falsy_get_preserved (est : ExtCache) (k : String) (now now' : Nat)
    (h : jsFalsyStrOpt (CacheService.get false est k now).1 = true) :
    jsFalsyStrOpt
      (CacheService.get false (CacheService.get false est k now).2 k now').1
        = true := by
  cases hlk : lookupEntry est k with
  | none =>
    rw [get_fault_free_miss est k now hlk, get_fault_free_miss est k now' hlk]
    rfl
  | some e =>
    by_cases hexp : e.expiresAt < now
    · rw [get_fault_free_expired est k now e hlk hexp,
        get_fault_free_miss _ k now' (lookupEntry_rawDelete_self est k)]
      rfl
    · rw [get_fault_free_live est k now e hlk hexp] at h ⊢
      by_cases hexp' : e.expiresAt < now'
      · rw [get_fault_free_expired est k now' e hlk hexp']
        rfl
      · rw [get_fault_free_live est k now' e hlk hexp']
        exact h

/-- C5 counterexample: the claim says that on an adapter failure the
`'NONE'` sentinel is written to the cache at the medium TTL so that a
subsequent call with the same description does not invoke the adapter
again. In the code the `cache.set` sits inside the `try` before the throw
point, so the catch branch writes nothing: with an empty cache and a
failing adapter, no entry appears under the derived key and the immediate
retry invokes the adapter again. -/
theorem extraction_failure_cached_claim_false :
    ¬ (∀ (est : ExtCache) (now : Nat) (d : String),
        jsFalsyStrOpt
            (CacheService.get false est (locationExtractKey d) now).1 = true →
        lookupEntry ((extractionStep GeminiOutcome.err est now d).2.1)
            (locationExtractKey d) = some ⟨"NONE", now + 60 * 60 * 1000⟩
          ∧ (extractionStep GeminiOutcome.err
              (extractionStep GeminiOutcome.err est now d).2.1 now d).2.2
                = false) := by
  intro h
  have hc := h [] 0 "send help now" (by rfl)
  have h1 := hc.1
  rw [show (extractionStep GeminiOutcome.err [] 0 "send help now").2.1
      = ([] : ExtCache) from rfl] at h1
  exact Option.noConfusion h1

/-- C5 (amended): when the language-understanding adapter call fails, the
extraction step does not raise (it is total): it returns the `'NONE'`
sentinel — but writes nothing to the cache (the catch branch performs no
`cache.set`), so the cache state is exactly the state the initial read left
behind, and a subsequent call with the same description invokes the adapter
again. -/
theorem extraction_failure_returns_sentinel_uncached (est : ExtCache)
    (now : Nat) (d : String)
    (hmiss : jsFalsyStrOpt
      (CacheService.get false est (locationExtractKey d) now).1 = true) :
    extractionStep GeminiOutcome.err est now d
        = ("NONE", (CacheService.get false est (locationExtractKey d) now).2,
            true)
      ∧ ∀ now', (extractionStep GeminiOutcome.err
          (extractionStep GeminiOutcome.err est now d).2.1 now' d).2.2
            = true := by
  have h1 : extractionStep GeminiOutcome.err est now d
      = ("NONE", (CacheService.get false est (locationExtractKey d) now).2,
          true) := by
    simp [extractionStep, hmiss]
  refine ⟨h1, ?_⟩
  intro now'
  rw [h1]
  have hf := falsy_get_preserved est (locationExtractKey d) now now' hmiss
  simp [extractionStep, hf]

/-- C5 witness: empty cache, failing adapter — the step returns `'NONE'`,
leaves the cache empty, and the retry at a later time invokes the adapter
again. -/
theorem extraction_failure_returns_sentinel_uncached_witness :
    extractionStep GeminiOutcome.err [] 0 "send help"
        = ("NONE",
            (CacheService.get false []
              (locationExtractKey "send help") 0).2, true)
      ∧ (extractionStep GeminiOutcome.err
          (extractionStep GeminiOutcome.err [] 0 "send help").2.1 99
            "send help").2.2 = true :=
  ⟨(extraction_failure_returns_sentinel_uncached [] 0 "send help" (by rfl)).1,
    (extraction_failure_returns_sentinel_uncached [] 0 "send help"
      (by rfl)).2 99⟩

/-- C9: With extraction requested, if the extraction step yields the
`'NONE'` sentinel the resolver is invoked with the literal original
description as the location name (and the handler's `location_name` /
geocode fields reflect that); any non-sentinel extraction value is used as
the location name instead. -/
theorem extraction_fallback_to_identity (env : Env)
    (behaviour : ProviderBehaviour) (gemini : GeminiOutcome) (est : ExtCache)
    (gst : GeoCache) (now : Nat) (d : String) :
    ((extractionStep gemini est now d).1 = "NONE" →
      (handlePost env behaviour gemini est gst now d true).location_name = d
        ∧ (handlePost env behaviour gemini est gst now d true).geocode
            = (geocodeLocation env behaviour gst now d).result
        ∧ (handlePost env behaviour gemini est gst now d true).providersInvoked
            = (geocodeLocation env behaviour gst now d).invoked)
    ∧ ((extractionStep gemini est now d).1 ≠ "NONE" →
      (handlePost env behaviour gemini est gst now d true).location_name
          = (extractionStep gemini est now d).1
        ∧ (handlePost env behaviour gemini est gst now d true).geocode
            = (geocodeLocation env behaviour gst now
                (extractionStep gemini est now d).1).result) := by
  by_cases h : (extractionStep gemini est now d).1 = "NONE" <;>
    simp [handlePost, h]

/-- C9 witness: a failing adapter yields the sentinel for
`"send help now"`, and the resolver runs on the literal description. -/
theorem extraction_fallback_to_identity_witness :
    (handlePost ⟨none, none⟩ ⟨.err, .err, .ok []⟩ GeminiOutcome.err [] [] 0
        "send help now" true).location_name = "send help now"
      ∧ (handlePost ⟨none, none⟩ ⟨.err, .err, .ok []⟩ GeminiOutcome.err [] []
          0 "send help now" true).geocode
          = (geocodeLocation ⟨none, none⟩ ⟨.err, .err, .ok []⟩ [] 0
              "send help now").result := by
  have h := (extraction_fallback_to_identity ⟨none, none⟩ ⟨.err, .err, .ok []⟩
    GeminiOutcome.err [] [] 0 "send help now").1 (by rfl)
  exact ⟨h.1, h.2.1⟩

/-- C10 (implicit): a cache miss is signalled by `null` and the extraction
call site tests only truthiness, so a cached empty string — falsy — is
indistinguishable from a miss: the cache layer returns the unexpired cached
`""`, yet the step invokes the language-understanding adapter again. -/
theorem falsy_cached_value_behaves_as_miss (gemini : GeminiOutcome)
    (est : ExtCache) (now e : Nat) (d : String)
    (hentry : lookupEntry est (locationExtractKey d) = some ⟨"", e⟩)
    (hlive : now ≤ e) :
    (CacheService.get false est (locationExtractKey d) now).1 = some ""
      ∧ (extractionStep gemini est now d).2.2 = true := by
  have hget := get_fault_free_live est (locationExtractKey d) now ⟨"", e⟩
    hentry (by show ¬ e < now; omega)
  refine ⟨by rw [hget], ?_⟩
  cases gemini <;> simp [extractionStep, hget, jsFalsyStrOpt]

/-- C10 witness: an unexpired cached `""` (as produced by caching a trimmed
blank extraction) is returned by the cache layer but the adapter still
runs. -/
theorem falsy_cached_value_behaves_as_miss_witness :
    (CacheService.get false [(locationExtractKey "x", ⟨"", 10⟩)]
        (locationExtractKey "x") 5).1 = some ""
      ∧ (extractionStep (GeminiOutcome.ok "Paris")
          [(locationExtractKey "x", ⟨"", 10⟩)] 5 "x").2.2 = true :=
  falsy_cached_value_behaves_as_miss (GeminiOutcome.ok "Paris")
    [(locationExtractKey "x", ⟨"", 10⟩)] 5 10 "x" (by decide) (by omega)

/-! ## Cache-key derivation lemmas -/

theorem b64Index_b64Char : ∀ i, i < 64 → b64Index (b64Char i) = some i := by
  decide

theorem b64Char_ne_pad : ∀ i, i < 64 → ¬ b64Char i = '=' := by
  decide

theorem base64Encode_roundtrip :
    ∀ bs : List Nat, (∀ b ∈ bs, b < 256) →
      base64Decode (base64Encode bs) = some bs
  | [] => fun _ => rfl
  | [b1] => fun h => by
    have hb1 : b1 < 256 := h b1 (by simp)
    simp only [base64Encode, base64Decode,
      b64Index_b64Char (b1 / 4) (by omega),
      b64Index_b64Char (b1 % 4 * 16) (by omega)]
    simp
    omega
  | [b1, b2] => fun h => by
    have hb1 : b1 < 256 := h b1 (by simp)
    have hb2 : b2 < 256 := h b2 (by simp)
    simp only [base64Encode, base64Decode,
      b64Index_b64Char (b1 / 4) (by omega),
      b64Index_b64Char (b1 % 4 * 16 + b2 / 16) (by omega),
      b64Index_b64Char (b2 % 16 * 4) (by omega),
      b64Char_ne_pad (b2 % 16 * 4) (by omega)]
    simp [b64Char_ne_pad (b2 % 16 * 4) (by omega)]
    omega
  | b1 :: b2 :: b3 :: rest => fun h => by
    have hb1 : b1 < 256 := h b1 (by simp)
    have hb2 : b2 < 256 := h b2 (by simp)
    have hb3 : b3 < 256 := h b3 (by simp)
    have ih := base64Encode_roundtrip rest
      (fun b hb => h b (by simp [hb]))
    simp only [base64Encode, base64Decode,
      b64Index_b64Char (b1 / 4) (by omega),
      b64Index_b64Char (b1 % 4 * 16 + b2 / 16) (by omega),
      b64Index_b64Char (b2 % 16 * 4 + b3 / 64) (by omega),
      b64Index_b64Char (b3 % 64) (by omega), ih]
    simp [b64Char_ne_pad (b2 % 16 * 4 + b3 / 64) (by omega),
      b64Char_ne_pad (b3 % 64) (by omega)]
    refine ⟨by omega, by omega, by omega⟩

theorem utf8EncodeCp_ne_nil (n : Nat) : utf8EncodeCp n ≠ [] := by
  unfold utf8EncodeCp
  split
  · simp
  · split
    · simp
    · split <;> simp

theorem utf8DecodeCp_encode (n : Nat) (hn : n < 1114112) (rest : List Nat) :
    utf8DecodeCp (utf8EncodeCp n ++ rest) = some (n, rest) := by
  by_cases h1 : n < 128
  · simp [utf8EncodeCp, utf8DecodeCp, h1]
  · by_cases h2 : n < 2048
    · have ha : ¬ 192 + n / 64 < 128 := by omega
      have hb : 192 + n / 64 < 224 := by omega
      simp [utf8EncodeCp, utf8DecodeCp, h1, h2, ha, hb]
      omega
    · by_cases h3 : n < 65536
      · have ha : ¬ 224 + n / 4096 < 128 := by omega
        have hb : ¬ 224 + n / 4096 < 224 := by omega
        have hc : 224 + n / 4096 < 240 := by omega
        simp [utf8EncodeCp, utf8DecodeCp, h1, h2, h3, ha, hb, hc]
        omega
      · have ha : ¬ 240 + n / 262144 < 128 := by omega
        have hb : ¬ 240 + n / 262144 < 224 := by omega
        have hc : ¬ 240 + n / 262144 < 240 := by omega
        simp [utf8EncodeCp, utf8DecodeCp, h1, h2, h3, ha, hb, hc]
        omega

theorem utf8EncodeCp_lt_256 (n : Nat) (hn : n < 1114112) :
    ∀ b ∈ utf8EncodeCp n, b < 256 := by
  intro b hb
  unfold utf8EncodeCp at hb
  split at hb
  · simp at hb; omega
  · split at hb
    · simp at hb; rcases hb with rfl | rfl <;> omega
    · split at hb
      · simp at hb; rcases hb with rfl | rfl | rfl <;> omega
      · simp at hb; rcases hb with rfl | rfl | rfl | rfl <;> omega

theorem utf8EncodeList_lt_256 (cs : List Nat)
    (h : ∀ c ∈ cs, c < 1114112) :
    ∀ b ∈ utf8EncodeList cs, b < 256 := by
  induction cs with
  | nil => simp [utf8EncodeList]
  | cons c t ih =>
    intro b hb
    simp only [utf8EncodeList, List.mem_append] at hb
    rcases hb with hb | hb
    · exact utf8EncodeCp_lt_256 c (h c (by simp)) b hb
    · exact ih (fun x hx => h x (by simp [hx])) b hb

theorem utf8EncodeList_inj :
    ∀ cs ds : List Nat, (∀ c ∈ cs, c < 1114112) →
      (∀ d ∈ ds, d < 1114112) →
      utf8EncodeList cs = utf8EncodeList ds → cs = ds
  | [], [] => fun _ _ _ => rfl
  | [], d :: ds => fun _ _ h => by
    simp only [utf8EncodeList] at h
    exact absurd (List.append_eq_nil.mp h.symm).1 (utf8EncodeCp_ne_nil d)
  | c :: cs, [] => fun _ _ h => by
    simp only [utf8EncodeList] at h
    exact absurd (List.append_eq_nil.mp h).1 (utf8EncodeCp_ne_nil c)
  | c :: cs, d :: ds => fun hc hd h => by
    have h1 := utf8DecodeCp_encode c (hc c (by simp)) (utf8EncodeList cs)
    have h2 := utf8DecodeCp_encode d (hd d (by simp)) (utf8EncodeList ds)
    rw [show utf8EncodeList (c :: cs)
        = utf8EncodeCp c ++ utf8EncodeList cs from rfl,
      show utf8EncodeList (d :: ds)
        = utf8EncodeCp d ++ utf8EncodeList ds from rfl] at h
    rw [h, h2] at h1
    have h3 := Option.some.inj h1
    have hcd : d = c := congrArg Prod.fst h3
    have hrest : utf8EncodeList ds = utf8EncodeList cs := congrArg Prod.snd h3
    have h4 := utf8EncodeList_inj cs ds (fun x hx => hc x (by simp [hx]))
      (fun x hx => hd x (by simp [hx])) hrest.symm
    rw [hcd, h4]

theorem char_toNat_lt (c : Char) : c.toNat < 1114112 := by
  rcases c.valid with h | ⟨h1, h2⟩
  · calc c.toNat < 55296 := h
      _ < 1114112 := by norm_num
  · exact h2

theorem char_toNat_injective : Function.Injective Char.toNat := by
  intro a b h
  exact Char.eq_of_val_eq (UInt32.ext h)

theorem string_data_inj (s t : String) (h : s.data = t.data) : s = t := by
  cases s; cases t; exact congrArg String.mk h

theorem bufferBase64_inj (s t : String)
    (h : bufferBase64 s = bufferBase64 t) : s = t := by
  have hvalid : ∀ u : String, ∀ c ∈ u.data.map Char.toNat, c < 1114112 := by
    intro u c hc
    simp only [List.mem_map] at hc
    obtain ⟨ch, _, rfl⟩ := hc
    exact char_toNat_lt ch
  have hchars : base64Encode (utf8EncodeList (s.data.map Char.toNat))
      = base64Encode (utf8EncodeList (t.data.map Char.toNat)) := by
    have hd := congrArg String.data h
    simpa [bufferBase64] using hd
  have hbytes := congrArg base64Decode hchars
  rw [base64Encode_roundtrip _ (utf8EncodeList_lt_256 _ (hvalid s)),
    base64Encode_roundtrip _ (utf8EncodeList_lt_256 _ (hvalid t))] at hbytes
  have hcp := utf8EncodeList_inj _ _ (hvalid s) (hvalid t)
    (Option.some.inj hbytes)
  exact string_data_inj s t
    (List.map_injective_iff.mpr char_toNat_injective hcp)

/-- C8: Cache-key derivation is a deterministic function of the operation
prefix and the raw input text, and it is injective per operation: the key
equals another call's key exactly when the input strings are char-for-char
identical — no trimming and no case folding happen before encoding, so
case- or whitespace-different inputs yield different keys. -/
theorem cache_key_deterministic_injective (s t : String) :
    (geocodeKey s = geocodeKey t ↔ s = t)
      ∧ (locationExtractKey s = locationExtractKey t ↔ s = t) := by
  constructor
  · constructor
    · intro h
      apply bufferBase64_inj
      apply string_data_inj
      have hd := congrArg String.data h
      simp only [geocodeKey, String.data_append] at hd
      exact List.append_cancel_left hd
    · intro h; rw [h]
  · constructor
    · intro h
      apply bufferBase64_inj
      apply string_data_inj
      have hd := congrArg String.data h
      simp only [locationExtractKey, String.data_append] at hd
      exact List.append_cancel_left hd
    · intro h; rw [h]

/-- C8 witness: identical input gives the identical key; a case-different
and a whitespace-different input give different keys. -/
theorem cache_key_deterministic_injective_witness :
    geocodeKey "Paris, France" = geocodeKey "Paris, France"
      ∧ ¬ geocodeKey "Paris, France" = geocodeKey "Paris, france"
      ∧ ¬ locationExtractKey "a b" = locationExtractKey "a  b" := by
  refine ⟨(cache_key_deterministic_injective "Paris, France"
    "Paris, France").1.mpr rfl, ?_, ?_⟩
  · intro h
    have hc := (cache_key_deterministic_injective "Paris, France"
      "Paris, france").1.mp h
    exact absurd hc (by decide)
  · intro h
    have hc := (cache_key_deterministic_injective "a b" "a  b").2.mp h
    exact absurd hc (by decide)

end DisasterBackend
